import Mathlib

/-!
Verification development for the Margsathi routing frontend
(`src/Margsathi/frontend/src/pages/Routing.jsx` and
`src/Margsathi/frontend/src/components/MapComponent.jsx`).

The development shallowly embeds, in Lean:
* `decodePolyline` from `MapComponent.jsx` (the polyline wire-format
  decoder), with JavaScript 32-bit bitwise semantics made explicit and
  with `charCodeAt` past the end of the string modelled exactly as the
  `NaN` it returns behaves in the decoder (`NaN & 0x1f = 0`,
  `NaN >= 0x20` is false);
* the `Routing` component's state and the state transitions performed by
  `handleSubmit` (request start, success application with reroute/delta
  detection, failure application), the endpoint-edit effect, the one-shot
  event-simulation effect, and the flag-reset timer callbacks.

Coordinates and route metrics are modelled as exact rationals; the JSON
numbers involved are decimal literals and all claims compared here are
robust to the (sub-1e-10) float rounding this abstracts away.
-/

namespace Margsathi

/-! ### JavaScript 32-bit integer semantics -/

/-- Unsigned 32-bit view of a JS number that has been through `ToInt32`. -/
def toUInt32 (n : Int) : Nat := (n % (2 ^ 32 : Int)).toNat

/-- JS `ToInt32`: wrap into `[-2^31, 2^31)`. -/
def toInt32 (n : Int) : Int :=
  let u := toUInt32 n
  if u < 2 ^ 31 then (u : Int) else (u : Int) - 2 ^ 32

/-- JS bitwise `a & b`. -/
def jsAnd (a b : Int) : Int :=
  toInt32 (Int.ofNat (Nat.land (toUInt32 a) (toUInt32 b)))

/-- JS bitwise `a | b`. -/
def jsOr (a b : Int) : Int :=
  toInt32 (Int.ofNat (Nat.lor (toUInt32 a) (toUInt32 b)))

/-- JS `a << n` (shift count is taken mod 32, result wraps to `Int32`). -/
def jsShl (a : Int) (n : Nat) : Int :=
  toInt32 ((toUInt32 a : Int) * 2 ^ (n % 32))

/-- JS sign-propagating `a >> n` (floor division by a power of two). -/
def jsShr (a : Int) (n : Nat) : Int :=
  Int.fdiv (toInt32 a) (2 ^ (n % 32))

/-- JS bitwise `~a`. -/
def jsNot (a : Int) : Int := -(toInt32 a) - 1

/-! ### decodePolyline (MapComponent.jsx lines 15-43)

The input string is modelled as its list of UTF-16 char codes.  The inner
`do { b = encoded.charCodeAt(index++) - 63; result |= (b & 0x1f) << shift;
shift += 5; } while (b >= 0x20)` loop is `readGroup`; reading past the end
of the string gives `NaN`, which contributes `0` bits and ends the loop —
modelled by the `[]` case, whose third component records that the group
was ended by running off the string rather than by a terminator char. -/

/-- One variable-length 5-bit group: returns the accumulated `result`,
the remaining input, and whether the group terminated inside the input
(`false` = the loop ran off the end of the string, the `NaN` read). -/
def readGroup : List Nat → Nat → Int → Int × List Nat × Bool
  | [], _, result => (result, [], false)
  | c :: rest, shift, result =>
      let b : Int := (c : Int) - 63
      let result := jsOr result (jsShl (jsAnd b 31) shift)
      if 32 ≤ b then readGroup rest (shift + 5) result else (result, rest, true)

/-- `((result & 1) ? ~(result >> 1) : (result >> 1))`. -/
def zigzagDecode (result : Int) : Int :=
  if jsAnd result 1 ≠ 0 then jsNot (jsShr result 1) else jsShr result 1

/-- The outer `while (index < len)` loop of `decodePolyline`, producing the
accumulated integer `(lat, lng)` pairs.  Each iteration consumes at least
one input char, so `fuel := ` initial list length always suffices (proved
in `decodeLoop_fuel`). -/
def decodeLoop : Nat → List Nat → Int → Int → List (Int × Int)
  | _, [], _, _ => []
  | 0, _ :: _, _, _ => []
  | fuel + 1, c :: rest, lat, lng =>
      let g1 := readGroup (c :: rest) 0 0
      let lat' := lat + zigzagDecode g1.1
      let g2 := readGroup g1.2.1 0 0
      let lng' := lng + zigzagDecode g2.1
      (lat', lng') :: decodeLoop fuel g2.2.1 lat' lng'

/-- `decodePolyline(encoded, precision)`: integer pairs divided by
`10^precision`, as exact rationals.  Written with `mkRat` so that concrete
instances evaluate inside the kernel; `mkRat_pow_eq_div` below identifies
it with the literal division `(lat : ℚ) / 10 ^ precision`. -/
def decodePolyline (encoded : List Nat) (precision : Nat) : List (ℚ × ℚ) :=
  (decodeLoop encoded.length encoded 0 0).map
    (fun p => (mkRat p.1 (10 ^ precision), mkRat p.2 (10 ^ precision)))

/-- Modelled from the spec: the sequence of coordinates that were "fully
resolved before the truncation point" — a coordinate counts only when both
of its variable-length groups terminate inside the input (no dangling
continuation bit).  This is the spec's expected decode of a truncated
input, kept for comparison with the code's `decodePolyline`. -/
def resolvedLoop : Nat → List Nat → Int → Int → List (Int × Int)
  | _, [], _, _ => []
  | 0, _ :: _, _, _ => []
  | fuel + 1, c :: rest, lat, lng =>
      let g1 := readGroup (c :: rest) 0 0
      let lat' := lat + zigzagDecode g1.1
      let g2 := readGroup g1.2.1 0 0
      let lng' := lng + zigzagDecode g2.1
      if g1.2.2 && g2.2.2 then (lat', lng') :: resolvedLoop fuel g2.2.1 lat' lng'
      else []

/-- Modelled from the spec: fully-resolved-prefix decode, scaled. -/
def resolvedPolyline (encoded : List Nat) (precision : Nat) : List (ℚ × ℚ) :=
  (resolvedLoop encoded.length encoded 0 0).map
    (fun p => (mkRat p.1 (10 ^ precision), mkRat p.2 (10 ^ precision)))

/-- Char codes of the standard sample string from the spec. -/
def sampleCodes : List Nat :=
  "_p~iF~ps|U_ulLnnqC_mqNvxq`@".toList.map Char.toNat

/-! ### Data model (Routing.jsx)

Only the fields the embedded operations read are modelled; purely
presentational response fields (step list, CO₂ estimate, provider label,
route label) are carried by none of the modelled transitions. -/

/-- A backend route endpoint (`start_point` / `end_point`). -/
structure GeoPoint where
  lat : ℚ
  lon : ℚ
  display : String
  deriving DecidableEq, Repr

/-- The slice of a backend `RoutePlanResult` the component logic reads. -/
structure RouteResult where
  geometry : Option String
  detailed_geometry : Option (List (ℚ × ℚ))
  distance_km : ℚ
  duration_minutes : ℚ
  end_point : Option GeoPoint
  deriving DecidableEq, Repr

/-- The mock event built by the one-shot simulation effect. -/
structure SimEvent where
  event_id : Nat
  event_name : String
  severity : String
  lat : ℚ
  lon : ℚ
  affected_radius : Nat
  deriving DecidableEq, Repr

/-- The flag-reset `setTimeout` callbacks armed by `handleSubmit`. -/
inductive TimerAct where
  | resetEta
  | resetDistance
  | resetRerouting
  deriving DecidableEq, Repr

/-- The `Routing` component's `useState` cells.  `lastCalculated` holds an
opaque timestamp (the JS `toLocaleTimeString` string is abstracted to the
`Nat` clock value passed to the success application). -/
structure RoutingState where
  source : String
  destination : String
  event : String
  loading : Bool
  result : Option RouteResult
  error : Option String
  isSidebarOpen : Bool
  activeStepIndex : Option Nat
  isLiveEnabled : Bool
  lastCalculated : Option Nat
  simulatedEvent : Option SimEvent
  showNotification : Bool
  previousResult : Option RouteResult
  isRerouting : Bool
  etaChanged : Bool
  distanceChanged : Bool
  hasSimulatedThisSession : Bool
  deriving DecidableEq, Repr

/-- The component's initial state (the `useState` initialisers). -/
def initState : RoutingState where
  source := ""
  destination := ""
  event := ""
  loading := false
  result := none
  error := none
  isSidebarOpen := true
  activeStepIndex := none
  isLiveEnabled := false
  lastCalculated := none
  simulatedEvent := none
  showNotification := false
  previousResult := none
  isRerouting := false
  etaChanged := false
  distanceChanged := false
  hasSimulatedThisSession := false

/-! ### handleSubmit (Routing.jsx lines 37-101)

`handleSubmit` runs synchronously up to `await axios.post` and resumes on
resolution.  The pre-await part is `startRequest`.  The resumption closes
over the render-time value of `previousResult`, so the success application
takes that captured snapshot (`snapPrev`) explicitly: for sequential calls
it equals the live `previousResult`, and interleaved calls see the value
from the render at which they were issued. -/

/-- Lines 39-41: `setLoading(true); setError(null); setActiveStepIndex(null)`. -/
def startRequest (st : RoutingState) : RoutingState :=
  { st with loading := true, error := none, activeStepIndex := none }

/-- Line 76: `previousResult && previousResult.geometry !== response.data.geometry`. -/
def rerouteCond (snapPrev : Option RouteResult) (resp : RouteResult) : Bool :=
  match snapPrev with
  | some p => decide (p.geometry ≠ resp.geometry)
  | none => false

/-- Line 81: `previousResult.duration_minutes !== response.data.duration_minutes`. -/
def etaDelta (snapPrev : Option RouteResult) (resp : RouteResult) : Bool :=
  match snapPrev with
  | some p => decide (p.duration_minutes ≠ resp.duration_minutes)
  | none => false

/-- Line 85: `previousResult.distance_km !== response.data.distance_km`. -/
def distDelta (snapPrev : Option RouteResult) (resp : RouteResult) : Bool :=
  match snapPrev with
  | some p => decide (p.distance_km ≠ resp.distance_km)
  | none => false

/-- Lines 71-95: the success resumption of `handleSubmit` (including the
`finally` clause), returning the new state together with the
`setTimeout` callbacks it armed, each with its 3000 ms delay.  The flag
setters run only inside the reroute branch, and each flag keeps its prior
value when its setter does not run. -/
def applySuccess (st : RoutingState) (snapPrev : Option RouteResult)
    (resp : RouteResult) (now : Nat) : RoutingState × List (Nat × TimerAct) :=
  let base := { st with
    result := some resp
    lastCalculated := some now
    isSidebarOpen := true }
  if rerouteCond snapPrev resp then
    ({ base with
        isRerouting := true
        etaChanged := if etaDelta snapPrev resp then true else st.etaChanged
        distanceChanged := if distDelta snapPrev resp then true else st.distanceChanged
        previousResult := some resp
        loading := false },
     (if etaDelta snapPrev resp then [(3000, TimerAct.resetEta)] else []) ++
     (if distDelta snapPrev resp then [(3000, TimerAct.resetDistance)] else []) ++
     [(3000, TimerAct.resetRerouting)])
  else
    ({ base with previousResult := some resp, loading := false }, [])

/-- Line 97: `err.response?.data?.detail || 'Failed to get route suggestion'`
(`||`, so an empty-string detail also falls back). -/
def errMsgOf (detail : Option String) : String :=
  match detail with
  | some d => if d = "" then "Failed to get route suggestion" else d
  | none => "Failed to get route suggestion"

/-- Lines 96-100: the failure resumption of `handleSubmit` (catch +
finally). -/
def applyFailure (st : RoutingState) (detail : Option String) : RoutingState :=
  { st with error := some (errMsgOf detail), loading := false }

/-- The flag-reset timer callbacks (lines 83, 87, 91): each touches only
its own flag. -/
def runTimer : TimerAct → RoutingState → RoutingState
  | TimerAct.resetEta, st => { st with etaChanged := false }
  | TimerAct.resetDistance, st => { st with distanceChanged := false }
  | TimerAct.resetRerouting, st => { st with isRerouting := false }

/-! ### Endpoint edit and event-simulation effects -/

/-- Lines 104-109 and 143-145: the synchronous state resets performed by
the two effects that watch `source`/`destination`.  The simulation resets
of lines 107-109 (`setSimulatedEvent(null)`, `setEvent('')`,
`setShowNotification(false)`) sit behind line 105's
`if (!source || !destination) return`, so they are skipped when either
new endpoint is empty; the `hasSimulatedThisSession` reset of lines
143-145 is unconditional. -/
def editEndpoints (st : RoutingState) (src dst : String) : RoutingState :=
  if src = "" ∨ dst = "" then
    { st with
      source := src
      destination := dst
      hasSimulatedThisSession := false }
  else
    { st with
      source := src
      destination := dst
      simulatedEvent := none
      event := ""
      showNotification := false
      hasSimulatedThisSession := false }

/-- Line 150: the guard under which the simulation effect arms its 10 s
timer (and under which, the dependencies being unchanged, it fires). -/
def simulateGuard (st : RoutingState) : Prop :=
  st.result.isSome = true ∧ st.event = "" ∧ st.simulatedEvent = none ∧
    st.loading = false ∧ st.hasSimulatedThisSession = false

instance (st : RoutingState) : Decidable (simulateGuard st) := by
  unfold simulateGuard; infer_instance

/-- Lines 158-172: pick the event location — a point sampled from the
middle index range of the detailed geometry when it has more than 10
points, else an offset from the end point.  `pickIdx` injects the
`Math.random()` draw as the sampled offset into the index range
(`Math.floor(len*0.3)`/`Math.floor(len*0.7)` are written as exact
`3*len/10`/`7*len/10`; no claim depends on the index chosen). -/
def pickEventLocation (r : RouteResult) (pickIdx : Nat) : Option (ℚ × ℚ) :=
  let fromGeom : Option (ℚ × ℚ) :=
    match r.detailed_geometry with
    | some dg =>
        if 10 < dg.length then
          let minIdx := 3 * dg.length / 10
          let maxIdx := 7 * dg.length / 10
          dg[minIdx + pickIdx % (maxIdx - minIdx + 1)]?
        else none
    | none => none
  match fromGeom with
  | some pt => some pt
  | none =>
      match r.end_point with
      | some ep => some (ep.lat - 1 / 1000, ep.lon - 1 / 1000)
      | none => none

/-- Lines 176-177: `mockEventTypes[Math.floor(Math.random()*3)]`. -/
def mockEventName (pickType : Nat) : String :=
  ["Rally", "Political meeting", "Road construction"].getD (pickType % 3) "Rally"

/-- Lines 153-196: the simulation timer callback.  It always marks
`hasSimulatedThisSession`; when a location is found it installs the mock
event, shows the notification, sets the event label, and synchronously
starts `handleSubmit` (whose pre-await part runs immediately). -/
def simulateFire (st : RoutingState) (now pickIdx pickType : Nat) : RoutingState :=
  let st1 := { st with hasSimulatedThisSession := true }
  match st.result with
  | some r =>
      match pickEventLocation r pickIdx with
      | some loc =>
          let name := mockEventName pickType
          let ev : SimEvent :=
            { event_id := now, event_name := name, severity := "HIGH"
              lat := loc.1, lon := loc.2, affected_radius := 500 }
          startRequest
            { st1 with simulatedEvent := some ev, showNotification := true, event := name }
      | none => st1
  | none => st1

/-! ### Session actions and traces -/

/-- The atomic steps the component's event loop can take between renders:
request start, request resolution (success carries the closure snapshot of
`previousResult` and the clock), failure resolution, a qualifying
simulation-timer fire, an endpoint edit, and notification dismissal. -/
inductive RAction where
  | start
  | resolveOk (snap : Option RouteResult) (resp : RouteResult) (now : Nat)
  | resolveErr (detail : Option String)
  | simFire (now pickIdx pickType : Nat)
  | edit (src dst : String)
  | dismiss
  deriving DecidableEq, Repr

/-- Whether an action is an endpoint edit. -/
def RAction.isEdit : RAction → Bool
  | RAction.edit _ _ => true
  | _ => false

/-- One step of the component: the simulation timer only exists (and hence
only fires) when its guard held with unchanged dependencies. -/
def step : RAction → RoutingState → RoutingState
  | RAction.start, st => startRequest st
  | RAction.resolveOk snap resp now, st => (applySuccess st snap resp now).1
  | RAction.resolveErr d, st => applyFailure st d
  | RAction.simFire n i t, st =>
      if simulateGuard st then simulateFire st n i t else st
  | RAction.edit s d, st => editEndpoints st s d
  | RAction.dismiss, st => { st with showNotification := false }

/-- Number of simulation fires that actually happen along a trace. -/
def fireCount : List RAction → RoutingState → Nat
  | [], _ => 0
  | a :: rest, st =>
      (match a with
       | RAction.simFire _ _ _ => if simulateGuard st then 1 else 0
       | _ => 0) + fireCount rest (step a st)

/-- The supersession scenario of the spec: request A issued from `s0`,
request B issued next, B resolves first (`rB`), A resolves last (`rA`).
Each resolution uses the `previousResult` captured at its issue time
(`startRequest` does not touch `previousResult`, so both capture
`s0.previousResult`). -/
def supersededScenario (s0 : RoutingState) (rA rB : RouteResult)
    (n1 n2 : Nat) : RoutingState :=
  let s1 := startRequest s0
  let s2 := startRequest s1
  let s3 := (applySuccess s2 s0.previousResult rB n1).1
  (applySuccess s3 s0.previousResult rA n2).1

/-! ### Concrete values for counterexamples and witnesses -/

/-- A demo backend result with an end point (so the simulation effect can
place its event) and no detailed geometry. -/
def demoR : RouteResult where
  geometry := some "g"
  detailed_geometry := none
  distance_km := 5
  duration_minutes := 7
  end_point := some { lat := 1, lon := 2, display := "D" }

/-- A settled session displaying `demoR` (as the code leaves it after one
successful application: `previousResult = result`), with the simulation
effect's guard satisfied. -/
def demoSettled : RoutingState :=
  { initState with result := some demoR, previousResult := some demoR }

/-- Result of request A in the supersession scenario. -/
def resultA : RouteResult where
  geometry := some "gA"
  detailed_geometry := none
  distance_km := 1
  duration_minutes := 1
  end_point := none

/-- Result of request B in the supersession scenario. -/
def resultB : RouteResult where
  geometry := some "gB"
  detailed_geometry := none
  distance_km := 2
  duration_minutes := 2
  end_point := none

/-- Previous result whose compact geometry equals `currDetailed`'s but
whose detailed geometry differs. -/
def prevDetailed : RouteResult where
  geometry := some "shared"
  detailed_geometry := some [(0, 0)]
  distance_km := 1
  duration_minutes := 1
  end_point := none

/-- New result: same compact geometry as `prevDetailed`, different
detailed geometry. -/
def currDetailed : RouteResult where
  geometry := some "shared"
  detailed_geometry := some [(9, 9)]
  distance_km := 1
  duration_minutes := 1
  end_point := none

/-- Settled session displaying `prevDetailed`. -/
def settledDetailed : RoutingState :=
  { initState with result := some prevDetailed, previousResult := some prevDetailed }

/-- First leg of the overlapping-reroute counterexample. -/
def legP0 : RouteResult where
  geometry := some "g0"
  detailed_geometry := none
  distance_km := 1
  duration_minutes := 10
  end_point := none

/-- Second leg: new geometry, new duration (flags the ETA change). -/
def legR1 : RouteResult where
  geometry := some "g1"
  detailed_geometry := none
  distance_km := 1
  duration_minutes := 20
  end_point := none

/-- Third leg: new geometry again but the same duration as `legR1`. -/
def legR2 : RouteResult where
  geometry := some "g2"
  detailed_geometry := none
  distance_km := 1
  duration_minutes := 20
  end_point := none

/-- Settled session displaying `legP0`. -/
def legStart : RoutingState :=
  { initState with result := some legP0, previousResult := some legP0 }

/-- Two qualifying simulation-timer fires with no endpoint edit between. -/
def twoFires : List RAction := [RAction.simFire 0 0 0, RAction.simFire 1 1 1]

/-! ### Decoder lemmas -/

/-- The `mkRat` scaling in `decodePolyline` is exactly the source's
`lat / factor` with `factor = 10^precision`. -/
theorem mkRat_pow_eq_div (a : Int) (p : Nat) :
    mkRat a (10 ^ p) = (a : ℚ) / ((10 : ℚ) ^ p) := by
  rw [Rat.mkRat_eq_div]
  push_cast
  ring

/-- The outer loop does nothing on empty input, whatever the fuel. -/
theorem decodeLoop_nil (fuel : Nat) (lat lng : Int) :
    decodeLoop fuel [] lat lng = [] := by
  cases fuel <;> rfl

/-- The resolved-prefix loop does nothing on empty input. -/
theorem resolvedLoop_nil (fuel : Nat) (lat lng : Int) :
    resolvedLoop fuel [] lat lng = [] := by
  cases fuel <;> rfl

/-- A group that ran off the end of the input consumed the whole input. -/
theorem readGroup_runoff :
    ∀ (l : List Nat) (s : Nat) (r : Int),
      (readGroup l s r).2.2 = false → (readGroup l s r).2.1 = [] := by
  intro l
  induction l with
  | nil => intro s r _; rfl
  | cons c rest ih =>
      intro s r h
      by_cases hb : 32 ≤ (c : Int) - 63
      · simp only [readGroup, if_pos hb] at h ⊢
        exact ih _ _ h
      · simp [readGroup, if_neg hb] at h

/-- The code's decode equals the resolved-prefix decode followed by at
most one extra coordinate synthesised from a dangling tail group. -/
theorem decodeLoop_resolved :
    ∀ (fuel : Nat) (l : List Nat) (lat lng : Int),
      ∃ extra, decodeLoop fuel l lat lng = resolvedLoop fuel l lat lng ++ extra ∧
        extra.length ≤ 1 := by
  intro fuel
  induction fuel with
  | zero =>
      intro l lat lng
      cases l with
      | nil => exact ⟨[], by simp [decodeLoop, resolvedLoop], by simp⟩
      | cons c rest => exact ⟨[], by simp [decodeLoop, resolvedLoop], by simp⟩
  | succ fuel ih =>
      intro l lat lng
      cases l with
      | nil => exact ⟨[], by simp [decodeLoop_nil, resolvedLoop_nil], by simp⟩
      | cons c rest =>
          cases hok1 : (readGroup (c :: rest) 0 0).2.2 with
          | true =>
              cases hok2 : (readGroup ((readGroup (c :: rest) 0 0).2.1) 0 0).2.2 with
              | true =>
                  obtain ⟨extra, he, hl⟩ :=
                    ih ((readGroup ((readGroup (c :: rest) 0 0).2.1) 0 0).2.1)
                      (lat + zigzagDecode (readGroup (c :: rest) 0 0).1)
                      (lng + zigzagDecode ((readGroup ((readGroup (c :: rest) 0 0).2.1) 0 0).1))
                  refine ⟨extra, ?_, hl⟩
                  simp [decodeLoop, resolvedLoop, hok1, hok2, he]
              | false =>
                  have h2 : (readGroup ((readGroup (c :: rest) 0 0).2.1) 0 0).2.1 = [] :=
                    readGroup_runoff _ _ _ hok2
                  refine ⟨[(lat + zigzagDecode (readGroup (c :: rest) 0 0).1,
                            lng + zigzagDecode ((readGroup ((readGroup (c :: rest) 0 0).2.1) 0 0).1))],
                          ?_, by simp⟩
                  simp [decodeLoop, resolvedLoop, hok1, hok2, h2, decodeLoop_nil]
          | false =>
              have h1 : (readGroup (c :: rest) 0 0).2.1 = [] :=
                readGroup_runoff _ _ _ hok1
              have hnil : (readGroup ([] : List Nat) 0 0).2.1 = ([] : List Nat) := rfl
              refine ⟨[(lat + zigzagDecode (readGroup (c :: rest) 0 0).1,
                        lng + zigzagDecode ((readGroup ((readGroup (c :: rest) 0 0).2.1) 0 0).1))],
                      ?_, by simp⟩
              simp [decodeLoop, resolvedLoop, hok1, h1, hnil, decodeLoop_nil]

/-- C5: for every input (truncated/malformed tails included) the decoder
is total — the embedding is a total function, mirroring that `charCodeAt`
past the end yields `NaN`, which terminates the group loop rather than
throwing — and empty input decodes to the empty sequence; however the
output is the fully-resolved-prefix decode followed by at most one extra
coordinate synthesised from the dangling partial group, rather than the
resolved prefix alone (see `C5_counterexample`). -/
theorem C5_truncation_behaviour (encoded : List Nat) (precision : Nat) :
    decodePolyline [] precision = [] ∧
    ∃ extra, decodePolyline encoded precision =
        resolvedPolyline encoded precision ++ extra ∧ extra.length ≤ 1 := by
  constructor
  · simp [decodePolyline, decodeLoop]
  · obtain ⟨extra, he, hl⟩ := decodeLoop_resolved encoded.length encoded 0 0
    refine ⟨extra.map (fun p => (mkRat p.1 (10 ^ precision), mkRat p.2 (10 ^ precision))),
            ?_, ?_⟩
    · simp [decodePolyline, resolvedPolyline, he]
    · simpa using hl

/-- C5 counterexample: the one-character input `"_"` (char code 95) is a
single dangling continuation bit with no terminator, so zero coordinates
are fully resolved before the truncation point; the claim therefore
requires the empty sequence, but the code decodes it to the single
coordinate `(0, 0)` synthesised from the partial group. -/
theorem C5_counterexample :
    decodePolyline [95] 5 = [(mkRat 0 1, mkRat 0 1)] ∧
    resolvedPolyline [95] 5 = [] ∧
    decodePolyline [95] 5 ≠ resolvedPolyline [95] 5 := by decide

/-- C6: decoding the standard sample string at precision 5 yields exactly
three coordinates — in fact exactly `(38.5, -120.2)`, `(40.7, -120.95)`,
`(43.252, -126.453)` as rationals — and in particular each is within
1e-3 degrees of the expected value. -/
theorem C6_known_vector :
    (decodePolyline sampleCodes 5).length = 3 ∧
    decodePolyline sampleCodes 5 =
      [(mkRat 385 10, mkRat (-1202) 10),
       (mkRat 407 10, mkRat (-12095) 100),
       (mkRat 43252 1000, mkRat (-126453) 1000)] ∧
    (mkRat 38499 1000 ≤ ((decodePolyline sampleCodes 5).getD 0 (mkRat 0 1, mkRat 0 1)).1 ∧
     ((decodePolyline sampleCodes 5).getD 0 (mkRat 0 1, mkRat 0 1)).1 ≤ mkRat 38501 1000) ∧
    (mkRat (-120201) 1000 ≤ ((decodePolyline sampleCodes 5).getD 0 (mkRat 0 1, mkRat 0 1)).2 ∧
     ((decodePolyline sampleCodes 5).getD 0 (mkRat 0 1, mkRat 0 1)).2 ≤ mkRat (-120199) 1000) ∧
    (mkRat 40699 1000 ≤ ((decodePolyline sampleCodes 5).getD 1 (mkRat 0 1, mkRat 0 1)).1 ∧
     ((decodePolyline sampleCodes 5).getD 1 (mkRat 0 1, mkRat 0 1)).1 ≤ mkRat 40701 1000) ∧
    (mkRat (-120951) 1000 ≤ ((decodePolyline sampleCodes 5).getD 1 (mkRat 0 1, mkRat 0 1)).2 ∧
     ((decodePolyline sampleCodes 5).getD 1 (mkRat 0 1, mkRat 0 1)).2 ≤ mkRat (-120949) 1000) ∧
    (mkRat 43251 1000 ≤ ((decodePolyline sampleCodes 5).getD 2 (mkRat 0 1, mkRat 0 1)).1 ∧
     ((decodePolyline sampleCodes 5).getD 2 (mkRat 0 1, mkRat 0 1)).1 ≤ mkRat 43253 1000) ∧
    (mkRat (-126454) 1000 ≤ ((decodePolyline sampleCodes 5).getD 2 (mkRat 0 1, mkRat 0 1)).2 ∧
     ((decodePolyline sampleCodes 5).getD 2 (mkRat 0 1, mkRat 0 1)).2 ≤ mkRat (-126452) 1000) := by
  decide

/-! ### applySuccess projection lemmas -/

/-- A successful application always overwrites the displayed result. -/
theorem applySuccess_result (st : RoutingState) (snap : Option RouteResult)
    (resp : RouteResult) (now : Nat) :
    ((applySuccess st snap resp now).1).result = some resp := by
  cases h : rerouteCond snap resp <;> simp [applySuccess, h]

/-- A successful application stores the new result into `previousResult`. -/
theorem applySuccess_previousResult (st : RoutingState) (snap : Option RouteResult)
    (resp : RouteResult) (now : Nat) :
    ((applySuccess st snap resp now).1).previousResult = some resp := by
  cases h : rerouteCond snap resp <;> simp [applySuccess, h]

/-- The `finally` clause clears the loading flag. -/
theorem applySuccess_loading (st : RoutingState) (snap : Option RouteResult)
    (resp : RouteResult) (now : Nat) :
    ((applySuccess st snap resp now).1).loading = false := by
  cases h : rerouteCond snap resp <;> simp [applySuccess, h]

/-- A successful application never touches the notification visibility. -/
theorem applySuccess_showNotification (st : RoutingState) (snap : Option RouteResult)
    (resp : RouteResult) (now : Nat) :
    ((applySuccess st snap resp now).1).showNotification = st.showNotification := by
  cases h : rerouteCond snap resp <;> simp [applySuccess, h]

/-- A successful application never touches the one-shot simulation flag. -/
theorem applySuccess_hasSim (st : RoutingState) (snap : Option RouteResult)
    (resp : RouteResult) (now : Nat) :
    ((applySuccess st snap resp now).1).hasSimulatedThisSession
      = st.hasSimulatedThisSession := by
  cases h : rerouteCond snap resp <;> simp [applySuccess, h]

/-- `isRerouting` is set exactly by the compact-geometry inequality test
and otherwise keeps its previous value. -/
theorem applySuccess_isRerouting (st : RoutingState) (snap : Option RouteResult)
    (resp : RouteResult) (now : Nat) :
    ((applySuccess st snap resp now).1).isRerouting
      = (rerouteCond snap resp || st.isRerouting) := by
  cases h : rerouteCond snap resp <;> simp [applySuccess, h]

/-- `etaChanged` is set on a reroute with a duration delta and otherwise
keeps its previous value. -/
theorem applySuccess_etaChanged (st : RoutingState) (snap : Option RouteResult)
    (resp : RouteResult) (now : Nat) :
    ((applySuccess st snap resp now).1).etaChanged
      = ((rerouteCond snap resp && etaDelta snap resp) || st.etaChanged) := by
  cases h : rerouteCond snap resp <;>
    cases he : etaDelta snap resp <;> simp [applySuccess, h, he]

/-- `distanceChanged` is set on a reroute with a distance delta and
otherwise keeps its previous value. -/
theorem applySuccess_distanceChanged (st : RoutingState) (snap : Option RouteResult)
    (resp : RouteResult) (now : Nat) :
    ((applySuccess st snap resp now).1).distanceChanged
      = ((rerouteCond snap resp && distDelta snap resp) || st.distanceChanged) := by
  cases h : rerouteCond snap resp <;>
    cases hd : distDelta snap resp <;> simp [applySuccess, h, hd]

/-- The 3000 ms ETA-reset timer is armed exactly when the ETA flag was set. -/
theorem applySuccess_timerEta (st : RoutingState) (snap : Option RouteResult)
    (resp : RouteResult) (now : Nat) :
    ((3000, TimerAct.resetEta) ∈ (applySuccess st snap resp now).2) ↔
      (rerouteCond snap resp && etaDelta snap resp) = true := by
  cases h : rerouteCond snap resp <;>
    cases he : etaDelta snap resp <;>
      cases hd : distDelta snap resp <;> simp [applySuccess, h, he, hd]

/-- The 3000 ms distance-reset timer is armed exactly when the distance
flag was set. -/
theorem applySuccess_timerDist (st : RoutingState) (snap : Option RouteResult)
    (resp : RouteResult) (now : Nat) :
    ((3000, TimerAct.resetDistance) ∈ (applySuccess st snap resp now).2) ↔
      (rerouteCond snap resp && distDelta snap resp) = true := by
  cases h : rerouteCond snap resp <;>
    cases he : etaDelta snap resp <;>
      cases hd : distDelta snap resp <;> simp [applySuccess, h, he, hd]

/-! ### Claim C1 -/

/-- C1 (amended): `handleSubmit` stamps no supersession token and checks
none on arrival — every successful response overwrites the displayed
result when it resolves, so in the scenario "A issued, then B, A resolves
after B" the session ends up displaying A's result (last arrival wins),
not B's, and A's resolution is not a no-op. -/
theorem C1_last_arrival_wins :
    (∀ (st : RoutingState) (snap : Option RouteResult) (resp : RouteResult) (now : Nat),
        ((applySuccess st snap resp now).1).result = some resp) ∧
    (∀ (s0 : RoutingState) (rA rB : RouteResult) (n1 n2 : Nat),
        (supersededScenario s0 rA rB n1 n2).result = some rA) := by
  refine ⟨applySuccess_result, ?_⟩
  intro s0 rA rB n1 n2
  unfold supersededScenario
  exact applySuccess_result _ _ _ _

/-- C1 counterexample: from the initial session, issue A then B, let B's
result `resultB` arrive first and A's result `resultA` arrive last; the
claim requires the session to display only B's result, but it displays
A's. -/
theorem C1_counterexample :
    (supersededScenario initState resultA resultB 0 1).result = some resultA ∧
    (supersededScenario initState resultA resultB 0 1).result ≠ some resultB := by
  decide

/-! ### Claim C2 -/

/-- C2 (amended): the "route updated" notification becomes visible exactly
when the one-shot event simulation fires with a viable event location —
before and regardless of whether the event-caused recomputation changes
the geometry; request starts and resolutions (the plain user-edited
re-request path included) never change its visibility; an endpoint edit
that leaves both endpoints non-empty hides it, while an edit that empties
an endpoint skips the reset and leaves its visibility unchanged. -/
theorem C2_notification_on_simulation :
    (∀ (st : RoutingState) (now pickIdx pickType : Nat) (r : RouteResult),
        simulateGuard st → st.result = some r →
        (pickEventLocation r pickIdx).isSome = true →
        (simulateFire st now pickIdx pickType).showNotification = true) ∧
    (∀ (st : RoutingState) (snap : Option RouteResult) (resp : RouteResult) (now : Nat),
        ((applySuccess st snap resp now).1).showNotification = st.showNotification) ∧
    (∀ (st : RoutingState) (d : Option String),
        (applyFailure st d).showNotification = st.showNotification) ∧
    (∀ st : RoutingState, (startRequest st).showNotification = st.showNotification) ∧
    (∀ (st : RoutingState) (src dst : String), src ≠ "" → dst ≠ "" →
        (editEndpoints st src dst).showNotification = false) ∧
    (∀ (st : RoutingState) (src dst : String), src = "" ∨ dst = "" →
        (editEndpoints st src dst).showNotification = st.showNotification) := by
  refine ⟨?_, applySuccess_showNotification, fun st d => rfl, fun st => rfl, ?_, ?_⟩
  · intro st now pickIdx pickType r _ hr hl
    obtain ⟨loc, hloc⟩ := Option.isSome_iff_exists.mp hl
    simp [simulateFire, hr, hloc, startRequest]
  · intro st src dst hs hd
    simp [editEndpoints, hs, hd]
  · intro st src dst h
    simp [editEndpoints, h]

/-- C2 witness: in the settled demo session the simulation fires (an event
location exists via the end-point fallback) and the notification becomes
visible; a subsequent edit to non-empty endpoints hides it. -/
theorem C2_witness :
    simulateGuard demoSettled ∧ demoSettled.result = some demoR ∧
    (pickEventLocation demoR 0).isSome = true ∧
    (simulateFire demoSettled 3 0 0).showNotification = true ∧
    ("A" : String) ≠ "" ∧ ("B" : String) ≠ "" ∧
    (editEndpoints demoSettled "A" "B").showNotification = false ∧
    (editEndpoints demoSettled "" "B").showNotification = demoSettled.showNotification :=
  ⟨by decide, by decide, by decide,
   C2_notification_on_simulation.1 demoSettled 3 0 0 demoR (by decide) (by decide) (by decide),
   by decide, by decide,
   C2_notification_on_simulation.2.2.2.2.1 demoSettled "A" "B" (by decide) (by decide),
   C2_notification_on_simulation.2.2.2.2.2 demoSettled "" "B" (Or.inl rfl)⟩

/-- C2 counterexample: after the simulation fires, the event-caused
recomputation returns a result whose geometry equals the previous one —
no reroute is classified, yet the notification is visible, contradicting
"not shown when the new result's geometry equals the previous one". -/
theorem C2_counterexample :
    ((applySuccess (simulateFire demoSettled 0 0 0) (some demoR) demoR 1).1).showNotification
        = true ∧
    rerouteCond (some demoR) demoR = false ∧
    ((applySuccess (simulateFire demoSettled 0 0 0) (some demoR) demoR 1).1).isRerouting
        = false := by
  decide

/-! ### Claim C3 -/

/-- C3 (amended): on every successful application a reroute is classified
(the `isRerouting` flag newly set) iff a previous snapshot exists and the
two results' compact `geometry` fields are exactly unequal; the detailed
geometry is not consulted, and distance/duration differences alone never
cause the classification (the classification depends only on
`rerouteCond`, which reads only `geometry`). -/
theorem C3_geometry_only_classification :
    (∀ (st : RoutingState) (snap : Option RouteResult) (resp : RouteResult) (now : Nat),
        ((applySuccess st snap resp now).1).isRerouting
          = (rerouteCond snap resp || st.isRerouting)) ∧
    (∀ p resp : RouteResult,
        rerouteCond (some p) resp = true ↔ p.geometry ≠ resp.geometry) ∧
    (∀ resp : RouteResult, rerouteCond none resp = false) := by
  refine ⟨applySuccess_isRerouting, ?_, fun resp => rfl⟩
  intro p resp
  simp [rerouteCond]

/-- C3 counterexample: previous and new result share the compact
`geometry` but have different detailed geometry; the claim (detailed form
takes precedence) requires a reroute classification, but the code, which
compares only `geometry`, classifies none. -/
theorem C3_counterexample :
    prevDetailed.geometry = currDetailed.geometry ∧
    prevDetailed.detailed_geometry ≠ currDetailed.detailed_geometry ∧
    ((applySuccess settledDetailed (some prevDetailed) currDetailed 1).1).isRerouting
        = false := by
  decide

/-! ### Claim C4 -/

/-- C4 (amended): after every successful application `previousResult`
holds the newly applied result itself (it equals `current`, not the
result displayed before the application); it is unchanged by failures and
request starts, so at the start of the next application it holds the
result displayed immediately before that next application, and it is
empty only while no application has happened yet. -/
theorem C4_previous_is_current :
    (∀ (st : RoutingState) (snap : Option RouteResult) (resp : RouteResult) (now : Nat),
        ((applySuccess st snap resp now).1).previousResult = some resp ∧
        ((applySuccess st snap resp now).1).result = some resp) ∧
    (∀ (st : RoutingState) (d : Option String),
        (applyFailure st d).previousResult = st.previousResult) ∧
    (∀ st : RoutingState, (startRequest st).previousResult = st.previousResult) :=
  ⟨fun st snap resp now =>
     ⟨applySuccess_previousResult st snap resp now, applySuccess_result st snap resp now⟩,
   fun _ _ => rfl, fun _ => rfl⟩

/-- C4 counterexample: immediately after the first successful application
(no result was displayed before it) the claim requires `previousResult`
to be empty, but the code stores the newly applied result there. -/
theorem C4_counterexample :
    ((applySuccess (startRequest initState) initState.previousResult demoR 0).1).previousResult
        = some demoR ∧
    some demoR ≠ (none : Option RouteResult) := by
  decide

/-! ### Claim C7 -/

/-- C7 (amended): on a successful application, `etaChanged`
(resp. `distanceChanged`) is set true iff a reroute is classified and the
duration (resp. distance) delta is non-zero, and otherwise retains its
previous value (application never resets a flag); each set arms its own
3000 ms reset timer, and each timer callback clears only its own flag, so
the two flags' resets never affect each other. -/
theorem C7_delta_flags :
    (∀ (st : RoutingState) (snap : Option RouteResult) (resp : RouteResult) (now : Nat),
        ((applySuccess st snap resp now).1).etaChanged
            = ((rerouteCond snap resp && etaDelta snap resp) || st.etaChanged) ∧
        ((applySuccess st snap resp now).1).distanceChanged
            = ((rerouteCond snap resp && distDelta snap resp) || st.distanceChanged) ∧
        (((3000, TimerAct.resetEta) ∈ (applySuccess st snap resp now).2) ↔
            (rerouteCond snap resp && etaDelta snap resp) = true) ∧
        (((3000, TimerAct.resetDistance) ∈ (applySuccess st snap resp now).2) ↔
            (rerouteCond snap resp && distDelta snap resp) = true)) ∧
    (∀ st : RoutingState,
        runTimer TimerAct.resetEta st = { st with etaChanged := false } ∧
        runTimer TimerAct.resetDistance st = { st with distanceChanged := false }) :=
  ⟨fun st snap resp now =>
     ⟨applySuccess_etaChanged st snap resp now,
      applySuccess_distanceChanged st snap resp now,
      applySuccess_timerEta st snap resp now,
      applySuccess_timerDist st snap resp now⟩,
   fun _ => ⟨rfl, rfl⟩⟩

/-- C7 counterexample: a first reroute with a duration change sets
`etaChanged`; a second reroute applied while the flag is still set has a
zero duration delta, yet `etaChanged` remains true immediately after that
reroute — refuting "true immediately iff the duration delta is
non-zero". -/
theorem C7_counterexample :
    rerouteCond (some legR1) legR2 = true ∧
    etaDelta (some legR1) legR2 = false ∧
    ((applySuccess
        (startRequest ((applySuccess (startRequest legStart) (some legP0) legR1 0).1))
        (some legR1) legR2 1).1).etaChanged = true := by
  decide

/-! ### Claim C8 -/

/-- A simulation fire always marks the one-shot flag, whether or not a
viable event location was found. -/
theorem simulateFire_hasSim (st : RoutingState) (n i t : Nat) :
    (simulateFire st n i t).hasSimulatedThisSession = true := by
  rcases hr : st.result with _ | r
  · simp [simulateFire, hr]
  · rcases hl : pickEventLocation r i with _ | loc <;>
      simp [simulateFire, hr, hl, startRequest]

/-- Every non-edit action preserves a set one-shot flag ("cleared only by
an endpoint change"). -/
theorem step_preserves_hasSim (a : RAction) (st : RoutingState)
    (hna : RAction.isEdit a = false) (h : st.hasSimulatedThisSession = true) :
    (step a st).hasSimulatedThisSession = true := by
  cases a with
  | start => simpa [step, startRequest] using h
  | resolveOk snap resp now => simpa [step, applySuccess_hasSim] using h
  | resolveErr d => simpa [step, applyFailure] using h
  | simFire n i t =>
      by_cases hg : simulateGuard st
      · simp [step, hg, simulateFire_hasSim]
      · simpa [step, hg] using h
  | edit src dst => simp [RAction.isEdit] at hna
  | dismiss => simpa [step] using h

/-- Along an edit-free trace starting with the one-shot flag set, the
simulation never fires again. -/
theorem fireCount_zero_of_simulated :
    ∀ (acts : List RAction) (st : RoutingState),
      (∀ a ∈ acts, RAction.isEdit a = false) →
      st.hasSimulatedThisSession = true → fireCount acts st = 0 := by
  intro acts
  induction acts with
  | nil => intro st _ _; rfl
  | cons a rest ih =>
      intro st hne h
      have hna : RAction.isEdit a = false := hne a (by simp)
      have hrest : ∀ b ∈ rest, RAction.isEdit b = false :=
        fun b hb => hne b (List.mem_cons_of_mem _ hb)
      have h' := step_preserves_hasSim a st hna h
      cases a with
      | simFire n i t =>
          have hg : ¬ simulateGuard st := fun hg => by simp [hg.2.2.2.2] at h
          simp [fireCount, hg, ih _ hrest h']
      | start => simp [fireCount, ih _ hrest h']
      | resolveOk snap resp now => simp [fireCount, ih _ hrest h']
      | resolveErr d => simp [fireCount, ih _ hrest h']
      | edit src dst => simp [RAction.isEdit] at hna
      | dismiss => simp [fireCount, ih _ hrest h']

/-- C8: for a fixed (source, destination) pair — i.e. along any trace of
session actions containing no endpoint edit — the one-shot event
simulation fires at most once, however many qualifying idle windows
occur, and the one-shot flag, once set, is cleared by no action other
than an endpoint edit. -/
theorem C8_one_shot_simulation :
    (∀ (acts : List RAction) (st : RoutingState),
        (∀ a ∈ acts, RAction.isEdit a = false) → fireCount acts st ≤ 1) ∧
    (∀ (a : RAction) (st : RoutingState),
        RAction.isEdit a = false → st.hasSimulatedThisSession = true →
        (step a st).hasSimulatedThisSession = true) := by
  constructor
  · intro acts
    induction acts with
    | nil => intro st _; simp [fireCount]
    | cons a rest ih =>
        intro st hne
        have hna : RAction.isEdit a = false := hne a (by simp)
        have hrest : ∀ b ∈ rest, RAction.isEdit b = false :=
          fun b hb => hne b (List.mem_cons_of_mem _ hb)
        cases a with
        | simFire n i t =>
            by_cases hg : simulateGuard st
            · have h1 : (step (RAction.simFire n i t) st).hasSimulatedThisSession = true := by
                simp [step, hg, simulateFire_hasSim]
              simp [fireCount, hg, fireCount_zero_of_simulated rest _ hrest h1]
            · simpa [fireCount, hg] using ih (step (RAction.simFire n i t) st) hrest
        | start => simpa [fireCount] using ih _ hrest
        | resolveOk snap resp now => simpa [fireCount] using ih _ hrest
        | resolveErr d => simpa [fireCount] using ih _ hrest
        | edit src dst => simp [RAction.isEdit] at hna
        | dismiss => simpa [fireCount] using ih _ hrest
  · exact step_preserves_hasSim

/-- C8 witness: a trace with two qualifying fire attempts and no edit,
started from the settled demo session, fires at most once. -/
theorem C8_witness :
    (∀ a ∈ twoFires, RAction.isEdit a = false) ∧
    fireCount twoFires demoSettled ≤ 1 :=
  ⟨by decide, C8_one_shot_simulation.1 twoFires demoSettled (by decide)⟩

/-! ### Claim C9 -/

/-- C9 (amended): a failure while a result is displayed keeps the
displayed result and surfaces `some (errMsgOf detail)` as the error: the
collaborator's detail when present and non-empty, and the generic
fallback text otherwise — a present-but-empty detail also falls back
(JavaScript `||`). -/
theorem C9_failure_handling :
    (∀ (st : RoutingState) (r : RouteResult) (detail : Option String),
        st.result = some r →
        (applyFailure st detail).result = some r ∧
        (applyFailure st detail).error = some (errMsgOf detail)) ∧
    (∀ d : String, d ≠ "" → errMsgOf (some d) = d) ∧
    errMsgOf none = "Failed to get route suggestion" ∧
    errMsgOf (some "") = "Failed to get route suggestion" := by
  refine ⟨?_, ?_, rfl, rfl⟩
  · intro st r detail h
    exact ⟨by simp [applyFailure, h], rfl⟩
  · intro d hd
    simp [errMsgOf, hd]

/-- C9 witness: a failure with detail "boom" while `demoR` is displayed
keeps `demoR` and surfaces "boom". -/
theorem C9_witness :
    demoSettled.result = some demoR ∧ "boom" ≠ "" ∧
    (applyFailure demoSettled (some "boom")).result = some demoR ∧
    (applyFailure demoSettled (some "boom")).error = some (errMsgOf (some "boom")) ∧
    errMsgOf (some "boom") = "boom" :=
  ⟨by decide, by decide,
   (C9_failure_handling.1 demoSettled demoR (some "boom") (by decide)).1,
   (C9_failure_handling.1 demoSettled demoR (some "boom") (by decide)).2,
   C9_failure_handling.2.1 "boom" (by decide)⟩

/-- C9 counterexample: the collaborator's error detail is present but
empty; the claim requires the surfaced message to be taken from the
detail, but the code's `||` surfaces the generic fallback instead. -/
theorem C9_counterexample :
    (applyFailure demoSettled (some "")).error = some "Failed to get route suggestion" ∧
    "Failed to get route suggestion" ≠ "" := by
  decide

/-! ### Claim C10 -/

/-- C10: a failed `handleSubmit` run changes exactly the error text, the
loading flag, and the active step index — the displayed result, previous
result, simulated event, notification visibility (and every other state
cell) keep their values from the start of the call — and the loading flag
is false after completion on both the failure and the success path. -/
theorem C10_failure_frame :
    (∀ (st : RoutingState) (detail : Option String),
        applyFailure (startRequest st) detail =
          { st with
              error := some (errMsgOf detail)
              loading := false
              activeStepIndex := none }) ∧
    (∀ (st : RoutingState) (snap : Option RouteResult) (resp : RouteResult) (now : Nat),
        ((applySuccess (startRequest st) snap resp now).1).loading = false) := by
  constructor
  · intro st detail
    rfl
  · intro st snap resp now
    exact applySuccess_loading _ _ _ _

end Margsathi
